import Mathlib

/-!
Verification of the pyllments dataflow orchestration core (Port/Payload
connection protocol, ContextBuilder aggregation engine, multi-port callback
router, APIElement request serializer).  The repository snapshot ships the
documentation of these components (docs/elements/*.qmd and the ContextBuilder
page) but not the Python implementation files themselves, so every definition
below is a shallow model built from those documents and the specification,
with payload values abstracted to natural numbers.
-/

namespace Pyllments

/-! ## Association-list helpers -/

/-- Look up a key in an association list (first match). -/
def lookupAL {α : Type} : List (String × α) → String → Option α
  | [], _ => none
  | e :: rest, k => if e.1 == k then some e.2 else lookupAL rest k

/-- Overwrite the value stored under key `k` (entries with other keys are kept). -/
def setAL {α : Type} : List (String × α) → String → α → List (String × α)
  | [], _, _ => []
  | e :: rest, k, v => (if e.1 == k then (e.1, v) else e) :: setAL rest k v

theorem lookupAL_setAL_self {α : Type} (al : List (String × α)) (k : String) (v : α)
    (h : (lookupAL al k).isSome) : lookupAL (setAL al k v) k = some v := by
  induction al with
  | nil => simp [lookupAL] at h
  | cons e rest ih =>
      by_cases hk : e.1 == k
      · simp [lookupAL, setAL, hk]
      · simp only [lookupAL, setAL, hk, if_false, Bool.false_eq_true] at *
        exact ih h

theorem lookupAL_setAL_other {α : Type} (al : List (String × α)) (k k' : String)
    (v : α) (h : k' ≠ k) : lookupAL (setAL al k v) k' = lookupAL al k' := by
  induction al with
  | nil => simp [lookupAL, setAL]
  | cons e rest ih =>
      by_cases hk : e.1 == k
      · have he : e.1 = k := by simpa using hk
        have hne : (e.1 == k') = false := by
          simp [he]; exact fun hc => h hc.symm
        simp [lookupAL, setAL, hk, hne, ih]
      · simp only [setAL, hk, Bool.false_eq_true, if_false]
        by_cases hk' : e.1 == k'
        · simp [lookupAL, hk']
        · simp [lookupAL, hk', ih]

/-! ## Port & Payload connection protocol (spec section 4.1)

Modelled from the spec: the Python `ports.py` module is absent from the
snapshot; the model follows spec section 4.1 and the fan-out description in
docs/elements/ChatInterfaceElement/index.qmd ("you can connect multiple input
ports to this output, and all will receive the payload").  A Payload carries a
type tag used by the compatibility check; an InputPort stores the payload,
runs the node-supplied unpack callback, and clears the store unless `persist`.
-/

/-- A typed data envelope: a value with a stable type tag. -/
structure Payload where
  tag : String
  value : Nat
deriving DecidableEq, Repr

/-- Local state of one InputPort: the held payload and the node-local state
the unpack callback acts on. -/
structure IPState where
  stored : Option Nat
  localSt : Nat
deriving DecidableEq, Repr

/-- An InputPort: name, accepted type tag, persist flag and the node-supplied
unpack callback (payload value, node-local state ↦ new node-local state). -/
structure InputPortC where
  name : String
  acceptedTag : String
  persist : Bool
  react : Nat → Nat → Nat

/-- An OutputPort: produced type tag plus the connected InputPorts in
registration order. -/
structure OutputPortC where
  producedTag : String
  connections : List InputPortC

/-- Receive reaction of one InputPort: store the payload, invoke the unpack
callback, then clear the store when `persist = false` (spec section 4.1). -/
def receive (ip : InputPortC) (p : Nat) (s : IPState) : IPState :=
  let s1 : IPState := { stored := some p, localSt := s.localSt }
  let s2 : IPState := { s1 with localSt := ip.react p s1.localSt }
  if ip.persist then s2 else { s2 with stored := none }

/-- Graph-side port states, keyed by port name. -/
abbrev PortStates := List (String × IPState)

/-- Walk the connection list in registration order, applying each receive
reaction and recording the invocation trace. -/
def fanout (p : Nat) : List InputPortC → PortStates → List String →
    PortStates × List String
  | [], σ, tr => (σ, tr)
  | ip :: rest, σ, tr =>
      fanout p rest (setAL σ ip.name (receive ip p (match lookupAL σ ip.name with
        | some s => s
        | none => { stored := none, localSt := 0 }))) (tr ++ [ip.name])

/-- `emit`: validate the payload tag against the OutputPort's declared type,
then notify every connected InputPort synchronously in registration order;
returns the new port states and the invocation trace, or `none` on
`TypeMismatch`. -/
def emit (out : OutputPortC) (p : Payload) (σ : PortStates) :
    Option (PortStates × List String) :=
  if p.tag == out.producedTag then some (fanout p.value out.connections σ []) else none

theorem fanout_trace (p : Nat) (l : List InputPortC) (σ : PortStates)
    (tr : List String) : (fanout p l σ tr).2 = tr ++ l.map InputPortC.name := by
  induction l generalizing σ tr with
  | nil => simp [fanout]
  | cons ip rest ih => simp [fanout, ih]

/-! ## ContextBuilder aggregation engine (spec section 4.2)

Modelled from the spec: the Python `context_builder` element is absent from the
snapshot; the model follows the ContextBuilder documentation page (input_map
slot kinds, emit_order with `[name]` optional-bracket notation, trigger_map,
build_fn, the Processing Strategies priority list, and the Payload Persistence
rules) together with the ContextBuilder sections of
docs/elements/DiscordElement/index.qmd.  Payload values and the value-level
slot callbacks are abstracted: a slot store holds `Option Nat`.
-/

/-- Kind of an aggregation slot: a live input port (with its persist flag), a
constant message, or a template message. -/
inductive SlotKind
  | port (persist : Bool)
  | constant
  | template
deriving DecidableEq, Repr

/-- ContextBuilder configuration: the declared slots in declaration order and
the three optional strategies (custom build function, trigger map, emit
order).  A build function receives all slot stores, the just-arrived slot name
and the persistent state `c`, and returns the emission decision plus the new
state. -/
structure CBConfig where
  inputMap : List (String × SlotKind)
  buildFn : Option (List (String × Option Nat) → String → Nat →
    Option (List String) × Nat)
  triggerMap : Option (List (String × List String))
  emitOrder : Option (List String)

/-- ContextBuilder runtime state: the port-slot stores, the pending trigger
key (if a trigger-map trigger is accumulating arrivals) and the build
function's persistent state `c`. -/
structure CBState where
  stores : List (String × Option Nat)
  activeTrigger : Option String
  c : Nat

/-- Strip the optional-marker brackets from an emit-order / trigger-list
entry: `"[B]"` parses to `("B", true)`, anything else to itself non-optional. -/
def parseEntry (s : String) : String × Bool :=
  match s.data with
  | '[' :: rest =>
      if rest.getLast? == some ']' then (String.mk rest.dropLast, true)
      else (s, false)
  | _ => (s, false)

/-- Whether slot `n` is a port slot of the configuration. -/
def isPortSlot (cfg : CBConfig) (n : String) : Bool :=
  match lookupAL cfg.inputMap n with
  | some (.port _) => true
  | _ => false

/-- The persist flag of slot `n`; constants and templates count as persistent
(they are never cleared). -/
def slotPersist (cfg : CBConfig) (n : String) : Bool :=
  match lookupAL cfg.inputMap n with
  | some (.port p) => p
  | _ => true

/-- Whether slot `n` currently holds data: port slots consult the store;
constant and template slots are always available. -/
def populated (cfg : CBConfig) (stores : List (String × Option Nat))
    (n : String) : Bool :=
  match lookupAL cfg.inputMap n with
  | some (.port _) =>
      match lookupAL stores n with
      | some (some _) => true
      | _ => false
  | some .constant => true
  | some .template => true
  | none => false

/-- An entry list (emit order or a trigger's list) is ready when every
non-optional entry is populated. -/
def entriesReady (cfg : CBConfig) (stores : List (String × Option Nat))
    (entries : List String) : Bool :=
  entries.all (fun s => (parseEntry s).2 || populated cfg stores (parseEntry s).1)

/-- The emission produced by an entry list: the entries in order, with any
optional entry that is currently empty omitted, bracket markers stripped. -/
def entriesList (cfg : CBConfig) (stores : List (String × Option Nat))
    (entries : List String) : List String :=
  (entries.filter
      (fun s => !(parseEntry s).2 || populated cfg stores (parseEntry s).1)).map
    (fun s => (parseEntry s).1)

/-- Default-strategy readiness: every declared port slot is populated. -/
def allPortsPopulated (cfg : CBConfig)
    (stores : List (String × Option Nat)) : Bool :=
  cfg.inputMap.all (fun e =>
    match e.2 with
    | .port _ => populated cfg stores e.1
    | _ => true)

/-- Store an arriving payload value into its port slot (non-port names leave
the state unchanged). -/
def cbStore (cfg : CBConfig) (st : CBState) (a : String) (v : Nat) : CBState :=
  if isPortSlot cfg a then { st with stores := setAL st.stores a (some v) } else st

/-- Strategies 3 and 4 (emit order, then the default all-ports rule), used
when neither the build function nor the trigger map decides. -/
def cbFallback (cfg : CBConfig) (stores : List (String × Option Nat)) (c : Nat)
    (act : Option String) : Option (List String) × Nat × Option String :=
  match cfg.emitOrder with
  | some eo =>
      if entriesReady cfg stores eo then (some (entriesList cfg stores eo), c, act)
      else (none, c, act)
  | none =>
      if allPortsPopulated cfg stores then (some (cfg.inputMap.map (·.1)), c, act)
      else (none, c, act)

/-- The emission decision on a slot-arrival event, by strategy priority:
build function (if configured, its decision is final and the trigger state is
untouched), else trigger map (activate on a trigger key, fire and reset when
the trigger's non-optional entries are all populated), else emit order, else
the default rule.  Returns (emission, new `c`, new active trigger). -/
def cbDecide (cfg : CBConfig) (stores : List (String × Option Nat)) (a : String)
    (c : Nat) (act : Option String) : Option (List String) × Nat × Option String :=
  match cfg.buildFn with
  | some f =>
      let r := f stores a c
      (r.1, r.2, act)
  | none =>
    match cfg.triggerMap with
    | some tm =>
        let act2 : Option String :=
          match act with
          | some t => some t
          | none => if (lookupAL tm a).isSome then some a else none
        match act2 with
        | some t =>
            match lookupAL tm t with
            | some req =>
                if entriesReady cfg stores req then
                  (some (entriesList cfg stores req), c, none)
                else (none, c, act2)
            | none => (none, c, act2)
        | none => cbFallback cfg stores c none
    | none => cbFallback cfg stores c act

/-- Whether slot `n` must be cleared after an emission: it was included in the
emitted list, it is not persistent (constants and templates count as
persistent), and it is not the slot whose arrival triggered this cycle. -/
def clearCond (cfg : CBConfig) (emitted : List String) (trig n : String) : Bool :=
  emitted.contains n && !slotPersist cfg n && n != trig

/-- Post-emission clearing (Payload Persistence rules of the ContextBuilder
page): every emitted slot's store is cleared unless the slot is persistent
(which includes constants and templates) or it is the slot whose arrival
triggered this cycle. -/
def clearAfterEmit (cfg : CBConfig) (stores : List (String × Option Nat))
    (emitted : List String) (trig : String) : List (String × Option Nat) :=
  stores.map (fun e => if clearCond cfg emitted trig e.1 then (e.1, none) else e)

/-- One slot-arrival event of the ContextBuilder: store the value, decide by
strategy priority, and on emission clear the included slots per the
persistence rules. -/
def cbStep (cfg : CBConfig) (st : CBState) (a : String) (v : Nat) :
    CBState × Option (List String) :=
  let st1 := cbStore cfg st a v
  let d := cbDecide cfg st1.stores a st1.c st1.activeTrigger
  ({ stores :=
      match d.1 with
      | some names => clearAfterEmit cfg st1.stores names a
      | none => st1.stores,
     activeTrigger := d.2.2, c := d.2.1 }, d.1)

theorem cbStore_c (cfg : CBConfig) (st : CBState) (a : String) (v : Nat) :
    (cbStore cfg st a v).c = st.c := by
  unfold cbStore; split <;> rfl

theorem cbStore_activeTrigger (cfg : CBConfig) (st : CBState) (a : String)
    (v : Nat) : (cbStore cfg st a v).activeTrigger = st.activeTrigger := by
  unfold cbStore; split <;> rfl

theorem lookupAL_clearAfterEmit (cfg : CBConfig)
    (stores : List (String × Option Nat)) (em : List String) (trig n : String) :
    lookupAL (clearAfterEmit cfg stores em trig) n =
      if clearCond cfg em trig n
      then (lookupAL stores n).map (fun _ => none)
      else lookupAL stores n := by
  induction stores with
  | nil => cases hc : clearCond cfg em trig n <;> simp [clearAfterEmit, lookupAL, hc]
  | cons e rest ih =>
      by_cases hk : e.1 = n
      · subst hk
        cases hc : clearCond cfg em trig e.1 <;>
          simp [clearAfterEmit, lookupAL, hc]
      · have h1 : (e.1 == n) = false := by simpa using hk
        cases hc : clearCond cfg em trig e.1 <;>
          simpa [clearAfterEmit, lookupAL, hc, h1] using ih

theorem cbFallback_act (cfg : CBConfig) (stores : List (String × Option Nat))
    (c : Nat) (act : Option String) : (cbFallback cfg stores c act).2.2 = act := by
  unfold cbFallback
  split <;> split <;> rfl

theorem slotPersist_of_not_port (cfg : CBConfig) (n : String)
    (h : isPortSlot cfg n = false) : slotPersist cfg n = true := by
  unfold isPortSlot at h
  unfold slotPersist
  cases hl : lookupAL cfg.inputMap n with
  | none => rfl
  | some k =>
      cases k with
      | port p => rw [hl] at h; simp at h
      | constant => rfl
      | template => rfl

theorem cbDecide_emit_resets_trigger (cfg : CBConfig)
    (tm : List (String × List String)) (stores : List (String × Option Nat))
    (a : String) (c : Nat) (act : Option String) (names : List String)
    (hb : cfg.buildFn = none) (htm : cfg.triggerMap = some tm)
    (h : (cbDecide cfg stores a c act).1 = some names) :
    (cbDecide cfg stores a c act).2.2 = none := by
  simp only [cbDecide, hb, htm] at h ⊢
  cases act with
  | some t =>
      simp only at h ⊢
      cases hl : lookupAL tm t with
      | none => rw [hl] at h; simp at h
      | some req =>
          rw [hl] at h
          dsimp only at h ⊢
          by_cases hr : entriesReady cfg stores req = true
          · simp [hr]
          · simp [hr] at h
  | none =>
      cases hs : (lookupAL tm a).isSome with
      | true =>
          simp only [hs, if_true] at h ⊢
          cases hl : lookupAL tm a with
          | none => rw [hl] at hs; simp at hs
          | some req =>
              rw [hl] at h
              dsimp only at h ⊢
              by_cases hr : entriesReady cfg stores req = true
              · simp [hr]
              · simp [hr] at h
      | false =>
          simp only [hs, if_false, Bool.false_eq_true] at h ⊢
          exact cbFallback_act cfg stores c none

/-! ## APIElement request serializer and multi-port callback router
(spec sections 4.3 and 4.4)

Modelled from the spec: the Python `api_element` and `flow_controller` modules
are absent from the snapshot; the model follows
docs/elements/APIElement/index.qmd (input_map persist default, the Response
Strategies priority order response_dict → trigger_map → build_fn, request
serialization via `response_future` with a 429 on concurrent calls, the
30-second default timeout) and spec sections 4.3–4.4.  Request bodies,
futures and synthesized responses are abstracted to natural numbers and
string-keyed association lists.
-/

/-- One entry of the APIElement `input_map`: either a bare payload class or a
dict configuration with an optional explicit `persist` flag. -/
inductive APIInputSpec
  | payloadClass
  | dictConfig (persist : Option Bool)
deriving DecidableEq, Repr

/-- The `persist` flag explicitly written in the configuration, if any. -/
def explicitPersist : APIInputSpec → Option Bool
  | .payloadClass => none
  | .dictConfig p => p

/-- The effective persist flag of an input_map entry: `true` unless
`persist = False` is explicitly configured. -/
def specPersist : APIInputSpec → Bool
  | .payloadClass => true
  | .dictConfig none => true
  | .dictConfig (some b) => b

/-- APIElement configuration: the input_map, the three response sources and
the timeout (time units). -/
structure APIConfig where
  inputMap : List (String × APIInputSpec)
  responseDict : Option (List String)
  triggerMap : Option (List (String × List String))
  buildFn : Option (List (String × Option Nat) → String →
    Option (List (String × Nat)))
  timeout : Nat

/-- The default request timeout of the APIElement, in time units. -/
def defaultTimeout : Nat := 30

/-- Effective persist flag of input port `n` under the configuration. -/
def apiPersistOf (cfg : APIConfig) (n : String) : Bool :=
  match lookupAL cfg.inputMap n with
  | some s => specPersist s
  | none => true

/-- Whether every port in the list currently holds data. -/
def portsReady (stores : List (String × Option Nat)) (ks : List String) : Bool :=
  ks.all (fun k =>
    match lookupAL stores k with
    | some (some _) => true
    | _ => false)

/-- Collect the currently held values of the listed ports. -/
def gather (stores : List (String × Option Nat)) (ks : List String) :
    List (String × Nat) :=
  ks.filterMap (fun k =>
    match lookupAL stores k with
    | some (some v) => some (k, v)
    | _ => none)

/-- Which configured source synthesized a response. -/
inductive RespSource
  | fromDict
  | fromTrigger
  | fromBuild
deriving DecidableEq, Repr

/-- Response source 1 (`response_dict`): fires once all response keys have
received payloads. -/
def apiTryDict (cfg : APIConfig) (stores : List (String × Option Nat)) :
    Option (RespSource × List (String × Nat)) :=
  match cfg.responseDict with
  | some keys =>
      if portsReady stores keys then some (.fromDict, gather stores keys)
      else none
  | none => none

/-- Response source 2 (`trigger_map`): fires when the arrived port is a
trigger key and all of its required ports hold data. -/
def apiTryTrigger (cfg : APIConfig) (stores : List (String × Option Nat))
    (a : String) : Option (RespSource × List (String × Nat)) :=
  match cfg.triggerMap with
  | some tm =>
      match lookupAL tm a with
      | some req =>
          if portsReady stores req then some (.fromTrigger, gather stores req)
          else none
      | none => none
  | none => none

/-- Response source 3 (`build_fn`): called on every arrival; a non-`none`
return becomes the response. -/
def apiTryBuild (cfg : APIConfig) (stores : List (String × Option Nat))
    (a : String) : Option (RespSource × List (String × Nat)) :=
  match cfg.buildFn with
  | some f => (f stores a).map (fun r => (.fromBuild, r))
  | none => none

/-- Response resolution on a port arrival, in the documented priority order:
response_dict, then trigger_map, then build_fn. -/
def apiResolve (cfg : APIConfig) (stores : List (String × Option Nat))
    (a : String) : Option (RespSource × List (String × Nat)) :=
  match apiTryDict cfg stores with
  | some r => some r
  | none =>
      match apiTryTrigger cfg stores a with
      | some r => some r
      | none => apiTryBuild cfg stores a

/-- APIElement runtime state: the input-port stores and the Pending Request
slot (the `response_future`, keyed by an abstract request id). -/
structure APIState where
  stores : List (String × Option Nat)
  pending : Option Nat
deriving DecidableEq, Repr

/-- Outcome of an external HTTP call at the endpoint. -/
inductive CallResult
  | accepted
  | tooManyRequests
deriving DecidableEq, Repr

/-- External call arrival: a 429-equivalent `tooManyRequests` if a Pending
Request already exists (no queuing, state untouched); otherwise the Pending
Request slot is taken and the call's payload enters the graph (the emission
itself is an opaque downstream effect). -/
def externalCall (st : APIState) (reqId : Nat) : APIState × CallResult :=
  match st.pending with
  | some _ => (st, .tooManyRequests)
  | none => ({ st with pending := some reqId }, .accepted)

/-- Clear every non-persistent input port after a response is emitted. -/
def clearNonPersist (cfg : APIConfig) (stores : List (String × Option Nat)) :
    List (String × Option Nat) :=
  stores.map (fun e => if apiPersistOf cfg e.1 then e else (e.1, none))

/-- A resolved Pending Request: which request, which source synthesized the
response, and the response itself. -/
structure Resolution where
  reqId : Nat
  source : RespSource
  response : List (String × Nat)
deriving DecidableEq, Repr

/-- An input-port arrival at the serializer: store the payload; if a Pending
Request exists and a response source fires, resolve the Pending Request with
the synthesized result, free the slot and clear non-persistent ports. -/
def portArrival (cfg : APIConfig) (st : APIState) (a : String) (v : Nat) :
    APIState × Option Resolution :=
  let stores1 := setAL st.stores a (some v)
  match st.pending with
  | none => ({ st with stores := stores1 }, none)
  | some rid =>
      match apiResolve cfg stores1 a with
      | some r =>
          ({ stores := clearNonPersist cfg stores1, pending := none },
           some ⟨rid, r.1, r.2⟩)
      | none => ({ st with stores := stores1 }, none)

/-- Failure kind surfaced to the external caller by the serializer. -/
inductive FailKind
  | timeoutFail
deriving DecidableEq, Repr

/-- Timeout expiry: fail the Pending Request with `Timeout` and clear the
Pending Request slot. -/
def timeoutFire (st : APIState) : APIState × Option (Nat × FailKind) :=
  match st.pending with
  | some rid => ({ st with pending := none }, some (rid, .timeoutFail))
  | none => (st, none)

/-- One rule of the multi-port callback router: the callback and the set of
ports that must hold data for the trigger to fire. -/
structure RouterRule where
  callback : List (String × Nat) → List (String × Nat)
  required : List String

/-- Router registration table `{trigger_port: (callback, required_ports)}`. -/
structure RouterConfig where
  rules : List (String × RouterRule)

/-- The current values of every populated port. -/
def gatherAll (stores : List (String × Option Nat)) : List (String × Nat) :=
  stores.filterMap (fun e => e.2.map (fun v => (e.1, v)))

/-- Router arrival: store the payload; if the arrived port is a trigger key
and all of its required ports hold data, invoke the callback on the current
port values; otherwise the event is absorbed (no output, no queued
intention — the store update is the only state change either way). -/
def routerStep (cfg : RouterConfig) (stores : List (String × Option Nat))
    (a : String) (v : Nat) :
    List (String × Option Nat) × Option (List (String × Nat)) :=
  let stores1 := setAL stores a (some v)
  match lookupAL cfg.rules a with
  | some rule =>
      if portsReady stores1 rule.required
      then (stores1, some (rule.callback (gatherAll stores1)))
      else (stores1, none)
  | none => (stores1, none)

theorem lookupAL_clearNonPersist (cfg : APIConfig)
    (stores : List (String × Option Nat)) (n : String) :
    lookupAL (clearNonPersist cfg stores) n =
      if apiPersistOf cfg n then lookupAL stores n
      else (lookupAL stores n).map (fun _ => none) := by
  induction stores with
  | nil => cases hp : apiPersistOf cfg n <;> simp [clearNonPersist, lookupAL, hp]
  | cons e rest ih =>
      by_cases hk : e.1 = n
      · subst hk
        cases hp : apiPersistOf cfg e.1 <;> simp [clearNonPersist, lookupAL, hp]
      · have h1 : (e.1 == n) = false := by simpa using hk
        cases hp : apiPersistOf cfg e.1 <;>
          simpa [clearNonPersist, lookupAL, hp, h1] using ih

/-- Concrete scenario from the spec: ports `A`, `B` (persist = false), constant
`S`, `emit_order = ["S", "A", "[B]"]`. -/
def scenarioCfg : CBConfig :=
  { inputMap := [("A", .port false), ("B", .port false), ("S", .constant)],
    buildFn := none, triggerMap := none,
    emitOrder := some ["S", "A", "[B]"] }

/-- The scenario's empty initial state. -/
def scenarioInit : CBState :=
  { stores := [("A", none), ("B", none)], activeTrigger := none, c := 0 }

/-- Scenario step 1: only `A` arrives. -/
def scenarioStep1 : CBState × Option (List String) :=
  cbStep scenarioCfg scenarioInit "A" 1

/-- Scenario step 2: only `B` arrives next. -/
def scenarioStep2 : CBState × Option (List String) :=
  cbStep scenarioCfg scenarioStep1.1 "B" 2

end Pyllments

open Pyllments

/-- C7: for every OutputPort with connected InputPorts, `emit(payload)` (with a
matching type tag) invokes each connected InputPort's receive reaction exactly
once, synchronously, in the order in which the connections were registered:
the invocation trace equals the registration-order list of connected ports. -/
theorem emit_fanout_registration_order (out : Pyllments.OutputPortC)
    (p : Pyllments.Payload) (σ : Pyllments.PortStates)
    (h : p.tag = out.producedTag) :
    ∃ σ2, Pyllments.emit out p σ =
      some (σ2, out.connections.map Pyllments.InputPortC.name) := by
  refine ⟨(Pyllments.fanout p.value out.connections σ []).1, ?_⟩
  have htag : (p.tag == out.producedTag) = true := by simp [h]
  simp only [Pyllments.emit, htag, if_true]
  rw [show (Pyllments.fanout p.value out.connections σ []) =
    ((Pyllments.fanout p.value out.connections σ []).1,
     (Pyllments.fanout p.value out.connections σ []).2) from rfl,
    Pyllments.fanout_trace]
  simp

/-- C2: on every slot-arrival event of the ContextBuilder, when a custom build
function, a trigger map, and an emit order are all configured, the emission
decision equals the build function's decision on the post-arrival slot values,
and the trigger state is untouched: the trigger map and emit order never cause
an emission. -/
theorem cb_build_fn_sole_authority (cfg : CBConfig) (st : CBState) (a : String)
    (v : Nat)
    (f : List (String × Option Nat) → String → Nat → Option (List String) × Nat)
    (hb : cfg.buildFn = some f) (_htm : cfg.triggerMap.isSome = true)
    (_heo : cfg.emitOrder.isSome = true) :
    (cbStep cfg st a v).2 = (f (cbStore cfg st a v).stores a st.c).1
  ∧ (cbStep cfg st a v).1.activeTrigger = st.activeTrigger := by
  constructor
  · simp [cbStep, cbDecide, hb, cbStore_c]
  · simp [cbStep, cbDecide, hb, cbStore_c, cbStore_activeTrigger]

/-- Build function used in the C2 witness: always decline to emit. -/
def c2BuildFn : List (String × Option Nat) → String → Nat →
    Option (List String) × Nat :=
  fun _ _ c => (none, c)

/-- Configuration used in the C2 witness: all three strategies configured, and
the trigger map would fire on the arrival of `x` if it were consulted. -/
def c2Cfg : CBConfig :=
  { inputMap := [("x", .port false), ("y", .port false)],
    buildFn := some c2BuildFn,
    triggerMap := some [("x", ["x"])],
    emitOrder := some ["x", "y"] }

/-- Witness for C2: even though the trigger map's `x` trigger is satisfied by
the arrival, the declining build function suppresses the emission. -/
theorem cb_build_fn_sole_authority_witness :
    (cbStep c2Cfg
      { stores := [("x", none), ("y", none)], activeTrigger := none, c := 0 }
      "x" 5).2 = none := by
  have h := cb_build_fn_sole_authority c2Cfg
    { stores := [("x", none), ("y", none)], activeTrigger := none, c := 0 }
    "x" 5 c2BuildFn rfl rfl rfl
  rw [h.1]
  rfl

/-- C4 counterexample: in the scenario input_map `{A: port, B: port, S:
constant}` with emit_order `["S", "A", "[B]"]`, sending only `A` emits
`[S, A]`, but the subsequent arrival of only `B` does trigger a new emission —
`A`, being the slot that triggered the first cycle, is retained by the
persistence rules — contradicting the claim that no new emission can occur
until `A` arrives again. -/
theorem cb_emit_order_scenario_counterexample :
    scenarioStep1.2 = some ["S", "A"] ∧ scenarioStep2.2 ≠ none := by
  exact ⟨by decide, by decide⟩

/-- C4 (amended): with emit_order configured (and no build function or trigger
map), the engine emits exactly when all non-optional (non-bracketed) entries
are populated, omitting bracketed optional entries that are currently empty;
in the scenario, sending only `A` emits `[S, A]`, and — because the triggering
slot `A` is retained after emission — a subsequent arrival of only `B`
triggers a new emission `[S, A, B]`. -/
theorem cb_emit_order_semantics (cfg : CBConfig) (st : CBState) (a : String)
    (v : Nat) (eo : List String) (hb : cfg.buildFn = none)
    (ht : cfg.triggerMap = none) (he : cfg.emitOrder = some eo) :
    ((cbStep cfg st a v).2 =
      if entriesReady cfg (cbStore cfg st a v).stores eo
      then some (entriesList cfg (cbStore cfg st a v).stores eo) else none)
  ∧ scenarioStep1.2 = some ["S", "A"]
  ∧ scenarioStep2.2 = some ["S", "A", "B"] := by
  refine ⟨?_, by decide, by decide⟩
  simp only [cbStep, cbDecide, cbFallback, hb, ht, he]
  cases hr : entriesReady cfg (cbStore cfg st a v).stores eo <;> simp [hr]

/-- Witness for C4 (amended) at the scenario's first arrival. -/
theorem cb_emit_order_semantics_witness :
    (cbStep scenarioCfg scenarioInit "A" 1).2 = some ["S", "A"] := by
  have h := cb_emit_order_semantics scenarioCfg scenarioInit "A" 1
    ["S", "A", "[B]"] rfl rfl rfl
  rw [h.1]
  decide

/-- C5: after every ContextBuilder emission, each slot included in the emitted
order has its store cleared, except slots with `persist = true` and the slot
whose arrival triggered the current cycle (`clearCond` is exactly that rule);
slots that are not port slots (constants and templates) are never cleared. -/
theorem cb_persistence_after_emit (cfg : CBConfig) (st : CBState) (a : String)
    (v : Nat) (names : List String)
    (h : (cbStep cfg st a v).2 = some names) :
    (∀ n, lookupAL (cbStep cfg st a v).1.stores n =
        if clearCond cfg names a n
        then (lookupAL (cbStore cfg st a v).stores n).map (fun _ => none)
        else lookupAL (cbStore cfg st a v).stores n)
  ∧ (∀ n, isPortSlot cfg n = false →
        lookupAL (cbStep cfg st a v).1.stores n =
          lookupAL (cbStore cfg st a v).stores n) := by
  have hd : (cbDecide cfg (cbStore cfg st a v).stores a (cbStore cfg st a v).c
      (cbStore cfg st a v).activeTrigger).1 = some names := h
  have hs : (cbStep cfg st a v).1.stores =
      clearAfterEmit cfg (cbStore cfg st a v).stores names a := by
    simp only [cbStep, hd]
  constructor
  · intro n
    rw [hs, lookupAL_clearAfterEmit]
  · intro n hn
    rw [hs, lookupAL_clearAfterEmit]
    have hcc : clearCond cfg names a n = false := by
      unfold clearCond
      rw [slotPersist_of_not_port cfg n hn]
      simp
    rw [hcc]
    simp

/-- Witness for C5: in the scenario's first emission, the triggering slot `A`
is retained even though its persist flag is false. -/
theorem cb_persistence_after_emit_witness :
    lookupAL (cbStep scenarioCfg scenarioInit "A" 1).1.stores "A" =
      some (some 1) := by
  have h := cb_persistence_after_emit scenarioCfg scenarioInit "A" 1
    ["S", "A"] (by decide)
  rw [h.1 "A"]
  decide

/-- C6: with a trigger map configured (and no build function), any emission
returns the trigger state to idle (`none`); and from an idle state, an arrival
on a trigger key whose required list is not yet fully populated (over its
non-optional entries) produces no emission. -/
theorem cb_trigger_map_reset (cfg : CBConfig) (tm : List (String × List String))
    (hb : cfg.buildFn = none) (htm : cfg.triggerMap = some tm) :
    (∀ st a v names, (cbStep cfg st a v).2 = some names →
        (cbStep cfg st a v).1.activeTrigger = none)
  ∧ (∀ st a v req, st.activeTrigger = none → lookupAL tm a = some req →
        entriesReady cfg (cbStore cfg st a v).stores req = false →
        (cbStep cfg st a v).2 = none) := by
  constructor
  · intro st a v names h
    have hd : (cbDecide cfg (cbStore cfg st a v).stores a (cbStore cfg st a v).c
        (cbStore cfg st a v).activeTrigger).1 = some names := h
    have hres := cbDecide_emit_resets_trigger cfg tm (cbStore cfg st a v).stores
      a (cbStore cfg st a v).c (cbStore cfg st a v).activeTrigger names hb htm hd
    simpa [cbStep] using hres
  · intro st a v req hact hl hr
    have h1 : (cbStore cfg st a v).activeTrigger = none := by
      rw [cbStore_activeTrigger, hact]
    show (cbDecide cfg (cbStore cfg st a v).stores a (cbStore cfg st a v).c
        (cbStore cfg st a v).activeTrigger).1 = none
    rw [h1]
    simp only [cbDecide, hb, htm]
    simp [hl, hr]

/-- Configuration used in the C6 witness. -/
def c6Cfg : CBConfig :=
  { inputMap := [("p", .port false), ("q", .port false)],
    buildFn := none, triggerMap := some [("p", ["p", "q"])], emitOrder := none }

/-- Witness for C6: the arrival of trigger key `p` alone (required slot `q`
still empty) produces no emission. -/
theorem cb_trigger_map_reset_witness :
    (cbStep c6Cfg
      { stores := [("p", none), ("q", none)], activeTrigger := none, c := 0 }
      "p" 3).2 = none := by
  have h := cb_trigger_map_reset c6Cfg [("p", ["p", "q"])] rfl rfl
  exact h.2 _ "p" 3 ["p", "q"] rfl (by decide) (by decide)

/-- Witness for C7 at a concrete two-port graph. -/
theorem emit_fanout_registration_order_witness :
    ∃ σ2, Pyllments.emit
      { producedTag := "msg",
        connections :=
          [ { name := "a", acceptedTag := "msg", persist := true,
              react := fun p s => p + s },
            { name := "b", acceptedTag := "msg", persist := false,
              react := fun p s => p * s } ] }
      { tag := "msg", value := 7 }
      [("a", { stored := none, localSt := 0 }), ("b", { stored := none, localSt := 1 })]
      = some (σ2, ["a", "b"]) :=
  emit_fanout_registration_order _ _ _ rfl

/-- C1: at most one Pending Request exists per serializer instance; an
external call arriving while one is outstanding fails with the 429-equivalent
`tooManyRequests`, the serializer state is left exactly as it was (so the
outstanding request is still pending), and every subsequent arrival behaves as
if the rejected call had never happened — the outstanding request's eventual
resolution is unchanged. -/
theorem api_single_flight (st : APIState) (r r2 : Nat)
    (h : st.pending = some r) :
    externalCall st r2 = (st, CallResult.tooManyRequests)
  ∧ (externalCall st r2).1.pending = some r
  ∧ ∀ cfg a v, portArrival cfg (externalCall st r2).1 a v = portArrival cfg st a v := by
  have he : externalCall st r2 = (st, CallResult.tooManyRequests) := by
    unfold externalCall
    rw [h]
  refine ⟨he, ?_, ?_⟩
  · rw [he]
    exact h
  · intro cfg a v
    rw [he]

/-- Witness for C1: a second call while request 1 is pending is rejected with
the state untouched. -/
theorem api_single_flight_witness :
    externalCall { stores := [("q", none)], pending := some 1 } 2 =
      ({ stores := [("q", none)], pending := some 1 },
       CallResult.tooManyRequests) :=
  (api_single_flight { stores := [("q", none)], pending := some 1 } 1 2 rfl).1

/-- C8: when the timeout elapses with a Pending Request outstanding, the
request fails with `Timeout`, the Pending Request slot is cleared (port stores
untouched), an external call arriving immediately afterwards is accepted, and
the configurable timeout defaults to 30 time units. -/
theorem api_timeout_frees (st : APIState) (rid r2 : Nat)
    (h : st.pending = some rid) :
    (timeoutFire st).2 = some (rid, FailKind.timeoutFail)
  ∧ (timeoutFire st).1.pending = none
  ∧ (timeoutFire st).1.stores = st.stores
  ∧ (externalCall (timeoutFire st).1 r2).2 = CallResult.accepted
  ∧ defaultTimeout = 30 := by
  have ht : timeoutFire st = ({ st with pending := none },
      some (rid, FailKind.timeoutFail)) := by
    unfold timeoutFire
    rw [h]
  rw [ht]
  exact ⟨rfl, rfl, rfl, rfl, rfl⟩

/-- Witness for C8 at a concrete pending request. -/
theorem api_timeout_frees_witness :
    (externalCall (timeoutFire { stores := [], pending := some 7 }).1 8).2 =
      CallResult.accepted :=
  (api_timeout_frees { stores := [], pending := some 7 } 7 8 rfl).2.2.2.1

/-- Configuration used for C3: all three response sources configured, each
able to produce a response once `q` holds data. -/
def c3Cfg : APIConfig :=
  { inputMap := [("q", .payloadClass)],
    responseDict := some ["q"],
    triggerMap := some [("q", ["q"])],
    buildFn := some (fun _ _ => some [("built", 99)]),
    timeout := 30 }

/-- C3 counterexample: with response_dict, trigger_map and build_fn all
configured and every source able to fire on the arrival of `q`, the resolution
comes from the response dict — the build function, which would have returned
`[("built", 99)]`, is not the source — contradicting the claim that the custom
build function is consulted first. -/
theorem api_priority_counterexample :
    (apiResolve c3Cfg [("q", some 5)] "q").map (·.1) = some RespSource.fromDict
  ∧ apiTryBuild c3Cfg [("q", some 5)] "q" =
      some (RespSource.fromBuild, [("built", 99)])
  ∧ (apiResolve c3Cfg [("q", some 5)] "q").map (·.1) ≠
      some RespSource.fromBuild := by
  exact ⟨by decide, by decide, by decide⟩

/-- C3 (amended): the serializer's resolution sources are evaluated in the
documented order response_dict first, then trigger map, then custom build
function — the reverse of the aggregation engine's strategy order — and on any
resolution the Pending Request is resolved with the synthesized result, the
slot is freed and the non-persistent ports that fed it are cleared. -/
theorem api_resolution_order (cfg : APIConfig)
    (stores : List (String × Option Nat)) (a : String) :
    (∀ r, apiTryDict cfg stores = some r → apiResolve cfg stores a = some r)
  ∧ (apiTryDict cfg stores = none → ∀ r, apiTryTrigger cfg stores a = some r →
        apiResolve cfg stores a = some r)
  ∧ (apiTryDict cfg stores = none → apiTryTrigger cfg stores a = none →
        apiResolve cfg stores a = apiTryBuild cfg stores a)
  ∧ (∀ st rid v r, st.pending = some rid →
        apiResolve cfg (setAL st.stores a (some v)) a = some r →
        portArrival cfg st a v =
          ({ stores := clearNonPersist cfg (setAL st.stores a (some v)),
             pending := none }, some ⟨rid, r.1, r.2⟩)) := by
  refine ⟨?_, ?_, ?_, ?_⟩
  · intro r hd
    unfold apiResolve
    rw [hd]
  · intro hd r htr
    unfold apiResolve
    rw [hd, htr]
  · intro hd htr
    unfold apiResolve
    rw [hd, htr]
  · intro st rid v r hp hr
    simp only [portArrival, hp, hr]

/-- Witness for C3 (amended): in the all-sources configuration the response
dict resolves the arrival of `q`. -/
theorem api_resolution_order_witness :
    apiResolve c3Cfg [("q", some 5)] "q" =
      some (RespSource.fromDict, [("q", 5)]) := by
  have h := api_resolution_order c3Cfg [("q", some 5)] "q"
  exact h.1 _ (by decide)

/-- C9: for a router rule `{trigger_port: (callback, required_ports)}`, an
arrival at the trigger port invokes the callback on the current port values
exactly when every required port holds data at that moment; otherwise the
event is absorbed with no output, and in both cases the only state change is
the stored arrival itself — no intention is queued. -/
theorem router_trigger_semantics (cfg : RouterConfig)
    (stores : List (String × Option Nat)) (a : String) (v : Nat)
    (rule : RouterRule) (h : lookupAL cfg.rules a = some rule) :
    (portsReady (setAL stores a (some v)) rule.required = true →
        (routerStep cfg stores a v).2 =
          some (rule.callback (gatherAll (setAL stores a (some v)))))
  ∧ (portsReady (setAL stores a (some v)) rule.required = false →
        (routerStep cfg stores a v).2 = none)
  ∧ (routerStep cfg stores a v).1 = setAL stores a (some v) := by
  refine ⟨?_, ?_, ?_⟩
  · intro hr
    simp only [routerStep, h, hr, if_true]
  · intro hr
    simp only [routerStep, h, hr, Bool.false_eq_true, if_false]
  · simp only [routerStep, h]
    split <;> rfl

/-- Rule used in the C9 witness: the identity callback requiring `t` and `d`. -/
def c9Rule : RouterRule := { callback := fun vs => vs, required := ["t", "d"] }

/-- Router table used in the C9 witness. -/
def c9Cfg : RouterConfig := { rules := [("t", c9Rule)] }

/-- Witness for C9: with the dependency `d` already held, an arrival at `t`
fires the callback on the current values. -/
theorem router_trigger_semantics_witness :
    (routerStep c9Cfg [("t", none), ("d", some 4)] "t" 9).2 =
      some [("t", 9), ("d", 4)] := by
  have h := router_trigger_semantics c9Cfg [("t", none), ("d", some 4)] "t" 9
    c9Rule rfl
  rw [h.1 (by decide)]
  decide

/-- C10: every input port the APIElement creates from its input_map has
`persist` defaulting to true — both for bare payload-class entries and for
dict configurations without an explicit flag — so its payload survives the
post-response clearing of non-persistent ports (later trigger evaluations can
fire on dependencies received earlier); an explicit `persist` value is
honoured. -/
theorem api_persist_default (s : APIInputSpec) (hs : explicitPersist s = none)
    (cfg : APIConfig) (n : String) (hn : lookupAL cfg.inputMap n = some s) :
    specPersist s = true
  ∧ apiPersistOf cfg n = true
  ∧ (∀ stores, lookupAL (clearNonPersist cfg stores) n = lookupAL stores n)
  ∧ (∀ b s2, explicitPersist s2 = some b → specPersist s2 = b) := by
  have h1 : specPersist s = true := by
    cases s with
    | payloadClass => rfl
    | dictConfig p =>
        cases p with
        | none => rfl
        | some b => simp [explicitPersist] at hs
  have h2 : apiPersistOf cfg n = true := by
    unfold apiPersistOf
    rw [hn]
    exact h1
  refine ⟨h1, h2, ?_, ?_⟩
  · intro stores
    rw [lookupAL_clearNonPersist, h2]
    simp
  · intro b s2 h3
    cases s2 with
    | payloadClass => simp [explicitPersist] at h3
    | dictConfig p =>
        cases p with
        | none => simp [explicitPersist] at h3
        | some b2 =>
            simp only [explicitPersist, Option.some_inj] at h3
            subst h3
            rfl

/-- Witness for C10: a bare payload-class port `u` keeps its payload through
the post-response clearing. -/
theorem api_persist_default_witness :
    lookupAL (clearNonPersist
      { inputMap := [("u", APIInputSpec.payloadClass)], responseDict := none,
        triggerMap := none, buildFn := none, timeout := 30 }
      [("u", some 3)]) "u" = some (some 3) := by
  have h := api_persist_default APIInputSpec.payloadClass rfl
    { inputMap := [("u", APIInputSpec.payloadClass)], responseDict := none,
      triggerMap := none, buildFn := none, timeout := 30 } "u" rfl
  rw [h.2.2.1 [("u", some 3)]]
  decide
